import Mathlib

/-!
Verification of the layout / navigation / keybinding core of termilyon
(src/main.rs), a tabbed tiling terminal application.

The GTK widget tree of one tab is a binary tree: a `gtk::Paned` node holds a
`start` child and an `end` child, and the leaves are `ScrolledWindow`s each
holding one terminal.  We embed that tree as the inductive type `PaneTree`;
a leaf carries a `Nat` identifying its terminal session.  A position in the
tree is the list of sides taken from the root (the widget identity used by
the Rust code to walk parents is represented by this path).

Modifier state (`gdk::ModifierType`) is a bitset; we embed it as a record of
the named bits the program reads (SHIFT = bit 0, LOCK = bit 1, CONTROL =
bit 2, ALT = bit 3, SUPER = bit 26), with one `other` field standing for the
remaining, never individually inspected, bits.  Key values (`gdk::Key`) are
their numeric keysyms.  Strings handled character by character in the Rust
code are embedded as `List Char`; the color parser `rgba`, which slices the
string at fixed byte offsets, is embedded at the UTF-8 byte level.
-/

namespace Termilyon

/-- Orientation of a `gtk::Paned`: `horizontal` places children side by
side, `vertical` stacks them. -/
inductive Orientation where
  | horizontal
  | vertical
deriving DecidableEq, Repr

/-- A side of a paned: `start` is the left/top child, `stop` the
right/bottom child (Lean cannot use the Rust name `end`). -/
inductive Side where
  | start
  | stop
deriving DecidableEq, Repr

/-- One tab's layout: the tree of `gtk::Paned` splits with terminal-hosting
`ScrolledWindow` leaves.  A leaf's `Nat` identifies its terminal. -/
inductive PaneTree where
  | leaf (id : Nat)
  | split (o : Orientation) (s e : PaneTree)
deriving DecidableEq, Repr

/-- The subtree addressed by a path of sides, `none` if the path walks off
the tree. -/
def subtreeAt : PaneTree → List Side → Option PaneTree
  | t, [] => some t
  | .leaf _, _ :: _ => none
  | .split _ s _, Side.start :: p => subtreeAt s p
  | .split _ _ e, Side.stop :: p => subtreeAt e p

/-- Tree edit performed by `split_current_tab`: the focused node (addressed
by the path) is replaced, via `replace_widget_in_parent`, by a new `Paned`
whose `start` child is that node and whose `end` child is the freshly
created terminal leaf `n`.  `none` if the path is invalid. -/
def split_current_tab : PaneTree → List Side → Orientation → Nat → Option PaneTree
  | t, [], o, n => some (.split o t (.leaf n))
  | .leaf _, _ :: _, _, _ => none
  | .split o s e, Side.start :: p, o2, n =>
      (split_current_tab s p o2 n).map (fun s2 => .split o s2 e)
  | .split o s e, Side.stop :: p, o2, n =>
      (split_current_tab e p o2 n).map (fun e2 => .split o s e2)

/-- Tree edit performed by `close_scrolled_widget` on the leaf addressed by
the path: if the leaf's parent is the tab's root box (empty path) the whole
tab is closed instead (`none`); otherwise `collapse_paned` detaches both
children of the parent `Paned` and substitutes the sibling subtree for that
`Paned` in the grandparent's link (`replace_widget_in_parent`). -/
def close_scrolled_widget : PaneTree → List Side → Option PaneTree
  | _, [] => none
  | .leaf _, _ :: _ => none
  | .split _ _ e, [Side.start] => some e
  | .split _ s _, [Side.stop] => some s
  | .split o s e, Side.start :: q :: p =>
      (close_scrolled_widget s (q :: p)).map (fun s2 => .split o s2 e)
  | .split o s e, Side.stop :: q :: p =>
      (close_scrolled_widget e (q :: p)).map (fun e2 => .split o s e2)

/-- Direction of a directional-focus command. -/
inductive FocusDirection where
  | left
  | right
  | up
  | down
deriving DecidableEq, Repr

/-- The paned orientation a direction's axis requires (`target_orientation`
in `find_adjacent_terminal`). -/
def axisOf : FocusDirection → Orientation
  | .left => .horizontal
  | .right => .horizontal
  | .up => .vertical
  | .down => .vertical

/-- The side a direction departs from: at a matching split the focused pane
must be this child for the walk to cross to its sibling (`Right` departs
from `start`, `Left` from `end`, and so on). -/
def departSide : FocusDirection → Side
  | .left => Side.stop
  | .right => Side.start
  | .up => Side.stop
  | .down => Side.start

/-- `find_terminal_in_widget`: pre-order search for a terminal, descending
into the `start` child of every paned first.  On a `PaneTree` (whose leaves
all hold terminals) this is the first leaf in start-preferring order. -/
def find_terminal_in_widget : PaneTree → Nat
  | .leaf i => i
  | .split _ s _ => find_terminal_in_widget s

/-- `find_adjacent_terminal`: starting from the leaf addressed by the path,
walk up through the ancestors (nearest first).  At an ancestor paned whose
orientation matches the direction's axis, if the child we came from is the
side the direction departs from, return the terminal found by
`find_terminal_in_widget` in the sibling child; otherwise keep walking up.
`none` once the walk leaves the tree. -/
def find_adjacent_terminal : PaneTree → List Side → FocusDirection → Option Nat
  | .leaf _, _, _ => none
  | .split _ _ _, [], _ => none
  | .split o s e, Side.start :: p, d =>
      match find_adjacent_terminal s p d with
      | some t => some t
      | none =>
          if o = axisOf d ∧ Side.start = departSide d then
            some (find_terminal_in_widget e)
          else none
  | .split o s e, Side.stop :: p, d =>
      match find_adjacent_terminal e p d with
      | some t => some t
      | none =>
          if o = axisOf d ∧ Side.stop = departSide d then
            some (find_terminal_in_widget s)
          else none

/-- Notion used by the specification: the first (nearest) ancestor `Split`
along the path whose orientation matches the direction's axis, together
with the side the path takes at it and its two children.  `none` when no
such ancestor exists before the root. -/
def nearestAxisAncestor : PaneTree → List Side → FocusDirection →
    Option (Side × PaneTree × PaneTree)
  | .leaf _, _, _ => none
  | .split _ _ _, [], _ => none
  | .split o s e, Side.start :: p, d =>
      match nearestAxisAncestor s p d with
      | some r => some r
      | none => if o = axisOf d then some (Side.start, s, e) else none
  | .split o s e, Side.stop :: p, d =>
      match nearestAxisAncestor e p d with
      | some r => some r
      | none => if o = axisOf d then some (Side.stop, s, e) else none

/-- The sibling subtree entered when crossing a matching split: the child
opposite to the departing side. -/
def oppositeChild (d : FocusDirection) (s e : PaneTree) : PaneTree :=
  match departSide d with
  | Side.start => e
  | Side.stop => s

/-- `gdk::ModifierType` is a bitset; the program reads exactly the SHIFT
(bit 0), LOCK (bit 1), CONTROL (bit 2), ALT (bit 3) and SUPER (bit 26)
bits, so we embed the set as one Boolean per named bit plus `other` for the
remaining bits (buttons, hyper, meta, ...), which the code only ever masks
away wholesale. -/
structure ModifierType where
  shift : Bool
  lock : Bool
  control : Bool
  alt : Bool
  super : Bool
  other : Bool
deriving DecidableEq, Repr

/-- The empty modifier set (`gdk::ModifierType::empty()`). -/
def ModifierType.empty : ModifierType :=
  ⟨false, false, false, false, false, false⟩

/-- Bitwise or of two modifier sets. -/
def ModifierType.or (a b : ModifierType) : ModifierType :=
  ⟨a.shift || b.shift, a.lock || b.lock, a.control || b.control,
   a.alt || b.alt, a.super || b.super, a.other || b.other⟩

/-- Bitwise and of two modifier sets. -/
def ModifierType.and (a b : ModifierType) : ModifierType :=
  ⟨a.shift && b.shift, a.lock && b.lock, a.control && b.control,
   a.alt && b.alt, a.super && b.super, a.other && b.other⟩

/-- `gdk::ModifierType::SHIFT_MASK`. -/
def SHIFT_MASK : ModifierType := ⟨true, false, false, false, false, false⟩

/-- `gdk::ModifierType::LOCK_MASK` (caps lock). -/
def LOCK_MASK : ModifierType := ⟨false, true, false, false, false, false⟩

/-- `gdk::ModifierType::CONTROL_MASK`. -/
def CONTROL_MASK : ModifierType := ⟨false, false, true, false, false, false⟩

/-- `gdk::ModifierType::ALT_MASK`. -/
def ALT_MASK : ModifierType := ⟨false, false, false, true, false, false⟩

/-- `gdk::ModifierType::SUPER_MASK`. -/
def SUPER_MASK : ModifierType := ⟨false, false, false, false, true, false⟩

/-- The mask of the four recognized modifier bits built in
`KeyBinding::matches`. -/
def relevantMask : ModifierType :=
  (CONTROL_MASK.or SHIFT_MASK).or (ALT_MASK.or SUPER_MASK)

/-- Models `gdk_keyval_to_lower` on the key values this program binds:
Latin capital letters map to their lowercase counterpart, everything else
(lowercase letters, digits, arrow keysyms) to itself. -/
def keyvalToLower (k : Nat) : Nat :=
  if 65 ≤ k ∧ k ≤ 90 then k + 32 else k

/-- Models `gdk_keyval_to_upper` on the key values this program binds. -/
def keyvalToUpper (k : Nat) : Nat :=
  if 97 ≤ k ∧ k ≤ 122 then k - 32 else k

/-- A parsed chord: a key value plus a modifier set. -/
structure KeyBinding where
  key : Nat
  modifiers : ModifierType
deriving DecidableEq, Repr

/-- `KeyBinding::matches`: the event key must equal the chord key up to
case (`to_lower`/`to_upper` agreement), and the event modifier state,
masked to the four recognized bits, must equal the chord's modifier set
exactly. -/
def KeyBinding.matches (b : KeyBinding) (key : Nat) (state : ModifierType) : Bool :=
  let relevant := relevantMask
  let keyOk := key == b.key
    || keyvalToLower key == keyvalToLower b.key
    || keyvalToUpper key == keyvalToUpper b.key
  keyOk && (state.and relevant == b.modifiers)

/-- Models `gdk::Key::from_name` for the names this program can meet:
single Latin letters and digits resolve to their codepoint keyval, the four
arrow names to their keysym values; every other name is unknown.  The
lookup is case-sensitive, as in GDK. -/
def keyvalFromName (s : List Char) : Option Nat :=
  if s = "Left".toList then some 65361
  else if s = "Up".toList then some 65362
  else if s = "Right".toList then some 65363
  else if s = "Down".toList then some 65364
  else
    match s with
    | [c] =>
        if ('a' ≤ c ∧ c ≤ 'z') ∨ ('A' ≤ c ∧ c ≤ 'Z') ∨ ('0' ≤ c ∧ c ≤ '9') then
          some c.toNat
        else none
    | _ => none

/-- Rust `str::split('+')`: split a character sequence at every plus sign;
splitting the empty string yields one empty piece. -/
def splitOnPlus : List Char → List (List Char)
  | [] => [[]]
  | c :: rest =>
      let r := splitOnPlus rest
      if c = '+' then [] :: r
      else
        match r with
        | g :: gs => (c :: g) :: gs
        | [] => [[c]]

/-- Rust `str::trim` (on the whitespace characters that can occur in a
config file). -/
def trimChars (cs : List Char) : List Char :=
  ((cs.dropWhile Char.isWhitespace).reverse.dropWhile Char.isWhitespace).reverse

/-- One token step of `parse_keybinding`: a trimmed, non-empty token either
ors a modifier into the set (compared case-insensitively) or is tried as a
key name, first verbatim then uppercased; a token that resolves replaces
any previously resolved key, and an unresolved token is dropped. -/
def parseToken (acc : ModifierType × Option Nat) (part : List Char) :
    ModifierType × Option Nat :=
  let token := trimChars part
  if token.isEmpty then acc
  else
    let low := token.map Char.toLower
    if low = "ctrl".toList ∨ low = "control".toList then
      (acc.1.or CONTROL_MASK, acc.2)
    else if low = "shift".toList then (acc.1.or SHIFT_MASK, acc.2)
    else if low = "alt".toList ∨ low = "option".toList then
      (acc.1.or ALT_MASK, acc.2)
    else if low = "super".toList ∨ low = "meta".toList ∨ low = "win".toList then
      (acc.1.or SUPER_MASK, acc.2)
    else
      let tryName :=
        (keyvalFromName token).orElse (fun _ => keyvalFromName (token.map Char.toUpper))
      (acc.1, tryName.orElse (fun _ => acc.2))

/-- `parse_keybinding`: fold the token step over the plus-separated pieces;
if no token ever resolved to a key the spec yields no binding. -/
def parse_keybinding (text : List Char) : Option KeyBinding :=
  let r := (splitOnPlus text).foldl parseToken (ModifierType.empty, none)
  r.2.map (fun k => { key := k, modifiers := r.1 })

/-- The command table: one chord per named command plus the nine tab-switch
chords. -/
structure KeyBindings where
  new_tab : KeyBinding
  close_tab : KeyBinding
  rename_tab : KeyBinding
  close_panel : KeyBinding
  split_vertical : KeyBinding
  split_horizontal : KeyBinding
  copy : KeyBinding
  paste : KeyBinding
  reload_config : KeyBinding
  show_keybindings : KeyBinding
  focus_left : KeyBinding
  focus_right : KeyBinding
  focus_up : KeyBinding
  focus_down : KeyBinding
  tab_switch : List KeyBinding
deriving DecidableEq, Repr

/-- The configured chord specs, each optional (`RawKeyBindings`). -/
structure RawKeyBindings where
  new_tab : Option (List Char)
  close_tab : Option (List Char)
  rename_tab : Option (List Char)
  close_panel : Option (List Char)
  split_vertical : Option (List Char)
  split_horizontal : Option (List Char)
  copy : Option (List Char)
  paste : Option (List Char)
  reload_config : Option (List Char)
  show_keybindings : Option (List Char)
  tab_1 : Option (List Char)
  tab_2 : Option (List Char)
  tab_3 : Option (List Char)
  tab_4 : Option (List Char)
  tab_5 : Option (List Char)
  tab_6 : Option (List Char)
  tab_7 : Option (List Char)
  tab_8 : Option (List Char)
  tab_9 : Option (List Char)
  focus_left : Option (List Char)
  focus_right : Option (List Char)
  focus_up : Option (List Char)
  focus_down : Option (List Char)

/-- A raw table with nothing configured. -/
def RawKeyBindings.empty : RawKeyBindings :=
  ⟨none, none, none, none, none, none, none, none, none, none, none, none,
   none, none, none, none, none, none, none, none, none, none, none⟩

/-- One field of `apply_keybindings`: `raw.and_then(parse_keybinding)`
replaces the held binding only when the spec parses. -/
def updateBinding (old : KeyBinding) (raw : Option (List Char)) : KeyBinding :=
  match raw.bind parse_keybinding with
  | some v => v
  | none => old

/-- The tab-switch loop of `apply_keybindings`: each raw entry that parses
overwrites the slot at its index, guarded by the bounds check (out of range
writes nothing, like `List.set`). -/
def applyTabs : List KeyBinding → Nat → List (Option (List Char)) → List KeyBinding
  | ts, _, [] => ts
  | ts, i, r :: rs =>
      let ts2 :=
        match r.bind parse_keybinding with
        | some v => ts.set i v
        | none => ts
      applyTabs ts2 (i + 1) rs

/-- `apply_keybindings`: the Rust code mutates each field of the held table
in sequence from its own raw entry; since every statement reads and writes
exactly one field, this equals the simultaneous record update below. -/
def apply_keybindings (b : KeyBindings) (raw : RawKeyBindings) : KeyBindings :=
  { new_tab := updateBinding b.new_tab raw.new_tab
    close_tab := updateBinding b.close_tab raw.close_tab
    rename_tab := updateBinding b.rename_tab raw.rename_tab
    close_panel := updateBinding b.close_panel raw.close_panel
    split_vertical := updateBinding b.split_vertical raw.split_vertical
    split_horizontal := updateBinding b.split_horizontal raw.split_horizontal
    copy := updateBinding b.copy raw.copy
    paste := updateBinding b.paste raw.paste
    reload_config := updateBinding b.reload_config raw.reload_config
    show_keybindings := updateBinding b.show_keybindings raw.show_keybindings
    focus_left := updateBinding b.focus_left raw.focus_left
    focus_right := updateBinding b.focus_right raw.focus_right
    focus_up := updateBinding b.focus_up raw.focus_up
    focus_down := updateBinding b.focus_down raw.focus_down
    tab_switch :=
      applyTabs b.tab_switch 0
        [raw.tab_1, raw.tab_2, raw.tab_3, raw.tab_4, raw.tab_5, raw.tab_6,
         raw.tab_7, raw.tab_8, raw.tab_9] }

/-- Stand-in used where the Rust code unwraps a parse that cannot fail. -/
def fallbackBinding : KeyBinding := ⟨0, ModifierType.empty⟩

/-- `default_keybindings()`: the built-in chords, each parsed from its
spec string. -/
def default_keybindings : KeyBindings :=
  { new_tab := (parse_keybinding "Ctrl+Shift+T".toList).getD fallbackBinding
    close_tab := (parse_keybinding "Ctrl+Shift+W".toList).getD fallbackBinding
    rename_tab := (parse_keybinding "Ctrl+Shift+R".toList).getD fallbackBinding
    close_panel := (parse_keybinding "Ctrl+D".toList).getD fallbackBinding
    split_vertical := (parse_keybinding "Ctrl+Shift+P".toList).getD fallbackBinding
    split_horizontal := (parse_keybinding "Ctrl+Shift+H".toList).getD fallbackBinding
    copy := (parse_keybinding "Ctrl+Shift+C".toList).getD fallbackBinding
    paste := (parse_keybinding "Ctrl+Shift+V".toList).getD fallbackBinding
    reload_config := (parse_keybinding "Ctrl+Shift+L".toList).getD fallbackBinding
    show_keybindings := (parse_keybinding "Ctrl+Shift+K".toList).getD fallbackBinding
    focus_left := (parse_keybinding "Alt+Left".toList).getD fallbackBinding
    focus_right := (parse_keybinding "Alt+Right".toList).getD fallbackBinding
    focus_up := (parse_keybinding "Alt+Up".toList).getD fallbackBinding
    focus_down := (parse_keybinding "Alt+Down".toList).getD fallbackBinding
    tab_switch :=
      (List.range 9).map (fun n =>
        (parse_keybinding ("Alt+" ++ toString (n + 1)).toList).getD fallbackBinding) }

/-- How the key-pressed handler leaves an event: `Stop` consumes it,
`Proceed` lets it propagate further (`gtk::glib::Propagation`). -/
inductive Propagation where
  | Stop
  | Proceed
deriving DecidableEq, Repr

/-- The application state the key handler consults: the active tab's pane
tree, the path of the focused leaf if a terminal has the focus, and the
number of notebook pages. -/
structure AppState where
  tree : PaneTree
  focus : Option (List Side)
  nPages : Nat

/-- `close_focused_panel` reports whether it acted: true exactly when a
focused widget inside a scrolled window exists (the close itself always
succeeds then). -/
def close_focused_panel (st : AppState) : Bool :=
  st.focus.isSome

/-- `focus_adjacent_split`: true when a focused leaf exists and
`find_adjacent_terminal` finds a target in the given direction. -/
def focus_adjacent_split (st : AppState) (d : FocusDirection) : Bool :=
  match st.focus with
  | none => false
  | some p => (find_adjacent_terminal st.tree p d).isSome

/-- The tab-switch arm of the key handler: scan the bindings in order; at
the first chord match, consume the event only if the target index is below
the page count, and stop scanning (the loop breaks) either way. -/
def tab_switch_scan : List KeyBinding → Nat → Nat → Nat → ModifierType → Propagation
  | [], _, _, _, _ => Propagation.Proceed
  | b :: rest, idx, n, k, m =>
      if b.matches k m then
        if idx < n then Propagation.Stop else Propagation.Proceed
      else tab_switch_scan rest (idx + 1) n k m

/-- Index of the first tab-switch binding matching the event, used to state
the dispatch property. -/
def firstMatchIdx : List KeyBinding → Nat → Nat → ModifierType → Option Nat
  | [], _, _, _ => none
  | b :: rest, idx, k, m =>
      if b.matches k m then some idx else firstMatchIdx rest (idx + 1) k m

/-- The `connect_key_pressed` closure, reduced to its propagation decision:
chords are tried in the fixed source order; `close_panel`, `copy`, `paste`
and the four directional-focus commands consume the event only when their
action applies, and the tab-switch loop consumes only an in-range first
match. -/
def connect_key_pressed (kb : KeyBindings) (st : AppState) (k : Nat)
    (m : ModifierType) : Propagation :=
  if kb.new_tab.matches k m then Propagation.Stop
  else if kb.close_tab.matches k m then Propagation.Stop
  else if kb.rename_tab.matches k m then Propagation.Stop
  else if kb.close_panel.matches k m && close_focused_panel st then Propagation.Stop
  else if kb.split_vertical.matches k m then Propagation.Stop
  else if kb.split_horizontal.matches k m then Propagation.Stop
  else if kb.copy.matches k m && st.focus.isSome then Propagation.Stop
  else if kb.paste.matches k m && st.focus.isSome then Propagation.Stop
  else if kb.focus_left.matches k m && focus_adjacent_split st FocusDirection.left then
    Propagation.Stop
  else if kb.focus_right.matches k m && focus_adjacent_split st FocusDirection.right then
    Propagation.Stop
  else if kb.focus_up.matches k m && focus_adjacent_split st FocusDirection.up then
    Propagation.Stop
  else if kb.focus_down.matches k m && focus_adjacent_split st FocusDirection.down then
    Propagation.Stop
  else if kb.reload_config.matches k m then Propagation.Stop
  else if kb.show_keybindings.matches k m then Propagation.Stop
  else tab_switch_scan kb.tab_switch 0 st.nPages k m

/-- The notebook of tabs: the ordered page titles, the current page index
(`current_page`), and the never-decreasing tab counter used for default
titles (`tab_counter`, starting at 1). -/
structure TabsState where
  titles : List String
  active : Nat
  counter : Nat
deriving DecidableEq, Repr

/-- `gtk_notebook_current_page`: `none` when the notebook has no pages. -/
def current_page (st : TabsState) : Option Nat :=
  if st.titles.isEmpty then none else some st.active

/-- `gtk_notebook_set_current_page`: switching to an index that is not
below the page count does nothing (GTK documented behavior). -/
def set_current_page (st : TabsState) (i : Nat) : TabsState :=
  if i < st.titles.length then { st with active := i } else st

/-- `create_tab`: read and bump the counter, append a page titled with the
template and the counter value, then switch to page `counter - 1`. -/
def create_tab (tabTitle : String) (st : TabsState) : TabsState :=
  let tab_index := st.counter
  let label := tabTitle ++ " " ++ toString tab_index
  let st2 : TabsState :=
    { titles := st.titles ++ [label], active := st.active, counter := tab_index + 1 }
  set_current_page st2 (tab_index - 1)

/-- `focus_previous_tab`: after removing page `closed_index`, select the
page before it (clamped into range) and focus its terminal. -/
def focus_previous_tab (st : TabsState) (closed_index : Nat) : TabsState :=
  let pages := st.titles.length
  if pages = 0 then st
  else
    let target := if closed_index > 0 then closed_index - 1 else 0
    let target := if target ≥ pages then pages - 1 else target
    set_current_page st target

/-- `close_current_tab`: remove the current page if any, refocus, and
recreate a default tab when the notebook emptied. -/
def close_current_tab (tabTitle : String) (st : TabsState) : TabsState :=
  let st2 :=
    match current_page st with
    | some page =>
        focus_previous_tab { st with titles := st.titles.eraseIdx page } page
    | none => st
  if st2.titles.length = 0 then create_tab tabTitle st2 else st2

/-- The tab close-button handler: remove the clicked page if it is still
present, refocus, and recreate a default tab when the notebook emptied. -/
def close_button_clicked (tabTitle : String) (st : TabsState) (page : Nat) : TabsState :=
  let st2 :=
    if page < st.titles.length then
      focus_previous_tab { st with titles := st.titles.eraseIdx page } page
    else st
  if st2.titles.length = 0 then create_tab tabTitle st2 else st2

/-- `close_tab_or_window`: with a current page, close the window when at
most one page remains (the Boolean result), otherwise remove the page and
refocus. -/
def close_tab_or_window (st : TabsState) : TabsState × Bool :=
  match current_page st with
  | none => (st, false)
  | some page =>
      if st.titles.length ≤ 1 then (st, true)
      else (focus_previous_tab { st with titles := st.titles.eraseIdx page } page, false)

/-- The rename-dialog Ok handler of `rename_current_tab`: trim the entered
text; keep the old title when the trimmed text is empty, otherwise set the
label to the trimmed text. -/
def rename_current_tab (title : List Char) (input : List Char) : List Char :=
  let t := trimChars input
  if t.isEmpty then title else t

/-- A color as the program computes it: the three parsed 8-bit components
and the alpha channel (255 = the `1.0` passed to `gdk::RGBA::new`; the
division by 255.0 into `f32` components is injective on these values and
carries no information). -/
structure RGBA where
  r : Nat
  g : Nat
  b : Nat
  a : Nat
deriving DecidableEq, Repr

/-- Rust `str::is_char_boundary` on a UTF-8 byte sequence: offset 0, the
end, or any byte that is not a continuation byte. -/
def isCharBoundary (bs : List Nat) (i : Nat) : Bool :=
  i = 0 || i = bs.length ||
    (match bs.get? i with
     | some b => decide (b < 128 ∨ 192 ≤ b)
     | none => false)

/-- Rust string slicing `&s[a..b]` at the byte level: `none` models the
panic raised when the range is out of bounds or cuts a character. -/
def sliceStr (bs : List Nat) (a b : Nat) : Option (List Nat) :=
  if a ≤ b ∧ b ≤ bs.length ∧ isCharBoundary bs a ∧ isCharBoundary bs b then
    some ((bs.drop a).take (b - a))
  else none

/-- Value of one hexadecimal digit byte. -/
def hexDigitVal (b : Nat) : Option Nat :=
  if 48 ≤ b ∧ b ≤ 57 then some (b - 48)
  else if 97 ≤ b ∧ b ≤ 102 then some (b - 87)
  else if 65 ≤ b ∧ b ≤ 70 then some (b - 55)
  else none

/-- `u8::from_str_radix(s, 16)`: an optional sign followed by at least one
hex digit; a plus sign accumulates normally, a minus sign only reaches `Ok`
for value zero, and any overflow past 255 or invalid digit is an error. -/
def from_str_radix_u8 (bs : List Nat) : Option Nat :=
  let signDigits : Bool × List Nat :=
    match bs with
    | 43 :: rest => (false, rest)
    | 45 :: rest => (true, rest)
    | _ => (false, bs)
  let neg := signDigits.1
  let digits := signDigits.2
  if digits.isEmpty then none
  else
    digits.foldl
      (fun acc b =>
        acc.bind (fun v =>
          (hexDigitVal b).bind (fun d =>
            let v2 := v * 16 + d
            if neg then (if v2 = 0 then some 0 else none)
            else if v2 ≤ 255 then some v2 else none)))
      (some 0)

/-- `rgba` from main.rs at the UTF-8 byte level: strip every leading hash
byte; a remainder of byte length 6 is cut into three two-byte groups, each
parsed as hex with 0 substituted on parse failure; any other length yields
opaque black.  `none` models the byte-slicing panic on a 6-byte remainder
whose offsets 2 or 4 fall inside a multi-byte character. -/
def rgba (bs : List Nat) : Option RGBA :=
  let hex := bs.dropWhile (fun b => b = 35)
  if hex.length = 6 then
    (sliceStr hex 0 2).bind (fun s1 =>
      (sliceStr hex 2 4).bind (fun s2 =>
        (sliceStr hex 4 6).bind (fun s3 =>
          some ⟨(from_str_radix_u8 s1).getD 0, (from_str_radix_u8 s2).getD 0,
                (from_str_radix_u8 s3).getD 0, 255⟩)))
  else some ⟨0, 0, 0, 255⟩

/-- UTF-8 encoding of a character sequence, to present concrete inputs to
the byte-level `rgba`. -/
def utf8Bytes (cs : List Char) : List Nat :=
  cs.flatMap (fun c =>
    let n := c.toNat
    if n < 128 then [n]
    else if n < 2048 then [192 + n / 64, 128 + n % 64]
    else if n < 65536 then
      [224 + n / 4096, 128 + (n / 64) % 64, 128 + n % 64]
    else
      [240 + n / 262144, 128 + (n / 4096) % 64, 128 + (n / 64) % 64, 128 + n % 64])

/-- The fields of a theme file after TOML parsing (`ThemeConfig`), with the
color strings as UTF-8 bytes. -/
structure ThemeConfig where
  background : List Nat
  foreground : List Nat
  cursor : List Nat
  palette : List (List Nat)
  tab_active_bg : Option (List Nat)
  tab_active_fg : Option (List Nat)
  tab_inactive_bg : Option (List Nat)
  tab_inactive_fg : Option (List Nat)

/-- A fully parsed theme. -/
structure Theme where
  background : RGBA
  foreground : RGBA
  cursor : RGBA
  palette : List RGBA
  tab_active_bg : Option RGBA
  tab_active_fg : Option RGBA
  tab_inactive_bg : Option RGBA
  tab_inactive_fg : Option RGBA
deriving DecidableEq, Repr

/-- `parse_palette`: a palette whose length is not exactly 16 is rejected
(`some none`) before any color string is parsed; otherwise every entry goes
through `rgba`.  The outer `none` models a panic inside `rgba`. -/
def parse_palette (values : List (List Nat)) : Option (Option (List RGBA)) :=
  if values.length ≠ 16 then some none
  else (values.mapM rgba).map some

/-- `rgba` over an optional color string (`as_deref().map(rgba)`); the
outer `none` models a panic. -/
def rgbaOpt (v : Option (List Nat)) : Option (Option RGBA) :=
  match v with
  | none => some none
  | some s => (rgba s).map some

/-- `theme_from_file` after file reading and TOML parsing succeeded: parse
the palette first — rejection there abandons the whole theme with nothing
applied — then the named colors.  Outer `none` models a panic, `some none`
the rejected theme. -/
def theme_from_file (raw : ThemeConfig) : Option (Option Theme) :=
  match parse_palette raw.palette with
  | none => none
  | some none => some none
  | some (some palette) =>
      (rgba raw.background).bind (fun bg =>
        (rgba raw.foreground).bind (fun fg =>
          (rgba raw.cursor).bind (fun cur =>
            (rgbaOpt raw.tab_active_bg).bind (fun tab =>
              (rgbaOpt raw.tab_active_fg).bind (fun taf =>
                (rgbaOpt raw.tab_inactive_bg).bind (fun tib =>
                  (rgbaOpt raw.tab_inactive_fg).map (fun tif =>
                    some ⟨bg, fg, cur, palette, tab, taf, tib, tif⟩)))))))

/-- The colors a terminal is showing (`set_colors` + `set_color_cursor`
state). -/
structure TermColors where
  foreground : RGBA
  background : RGBA
  cursor : RGBA
  palette : List RGBA
deriving DecidableEq, Repr

/-- `apply_theme` on one terminal. -/
def apply_theme (t : Theme) : TermColors :=
  ⟨t.foreground, t.background, t.cursor, t.palette⟩

/-- The per-terminal color step of `apply_config_to_terminals` (also of
`create_terminal_widget`): with no theme the terminal's colors are left
untouched. -/
def apply_config_colors (prior : TermColors) (theme : Option Theme) : TermColors :=
  match theme with
  | some t => apply_theme t
  | none => prior

end Termilyon

namespace Termilyon

/-- C1: splitting the leaf at path `p` (the leaf becomes the `start` child
of a new split whose `end` child is the fresh leaf `n`) and then closing
that fresh leaf (path `p` extended by the `end` side) collapses the new
split away and yields the original tree, structurally equal. -/
theorem split_then_close_is_identity (p : List Side) (T : PaneTree)
    (o2 : Orientation) (n i : Nat) (h : subtreeAt T p = some (PaneTree.leaf i)) :
    (split_current_tab T p o2 n).bind
      (fun T2 => close_scrolled_widget T2 (p ++ [Side.stop])) = some T := by
  have eqS : ∀ (o : Orientation) (a b : PaneTree) (q : Side) (qs : List Side),
      close_scrolled_widget (PaneTree.split o a b) (Side.start :: q :: qs) =
        (close_scrolled_widget a (q :: qs)).map (fun x => PaneTree.split o x b) :=
    fun _ _ _ _ _ => rfl
  have eqE : ∀ (o : Orientation) (a b : PaneTree) (q : Side) (qs : List Side),
      close_scrolled_widget (PaneTree.split o a b) (Side.stop :: q :: qs) =
        (close_scrolled_widget b (q :: qs)).map (fun x => PaneTree.split o a x) :=
    fun _ _ _ _ _ => rfl
  induction p generalizing T with
  | nil =>
      simp [split_current_tab, close_scrolled_widget]
  | cons side p ih =>
      cases T with
      | leaf j => simp [subtreeAt] at h
      | split o s e =>
          cases side with
          | start =>
              have h' : subtreeAt s p = some (PaneTree.leaf i) := by
                simpa [subtreeAt] using h
              have hrec := ih s h'
              obtain ⟨s2, hs, hc⟩ := Option.bind_eq_some.mp hrec
              cases hpq : p ++ [Side.stop] with
              | nil => exact absurd hpq (by simp)
              | cons q qs =>
                  rw [hpq] at hc
                  simp only [List.cons_append, hpq, split_current_tab, hs,
                    Option.map_some', Option.some_bind]
                  rw [eqS, hc]
                  rfl
          | stop =>
              have h' : subtreeAt e p = some (PaneTree.leaf i) := by
                simpa [subtreeAt] using h
              have hrec := ih e h'
              obtain ⟨e2, hs, hc⟩ := Option.bind_eq_some.mp hrec
              cases hpq : p ++ [Side.stop] with
              | nil => exact absurd hpq (by simp)
              | cons q qs =>
                  rw [hpq] at hc
                  simp only [List.cons_append, hpq, split_current_tab, hs,
                    Option.map_some', Option.some_bind]
                  rw [eqE, hc]
                  rfl

/-- Witness for `split_then_close_is_identity` at a concrete tree: splitting
the left leaf of a one-split tree and closing the new leaf restores the
tree. -/
theorem split_then_close_is_identity_witness :
    subtreeAt (PaneTree.split Orientation.horizontal (PaneTree.leaf 1) (PaneTree.leaf 2))
        [Side.start] = some (PaneTree.leaf 1) ∧
    (split_current_tab
        (PaneTree.split Orientation.horizontal (PaneTree.leaf 1) (PaneTree.leaf 2))
        [Side.start] Orientation.vertical 7).bind
      (fun T2 => close_scrolled_widget T2 ([Side.start] ++ [Side.stop])) =
      some (PaneTree.split Orientation.horizontal (PaneTree.leaf 1) (PaneTree.leaf 2)) :=
  ⟨by decide,
   split_then_close_is_identity [Side.start]
     (PaneTree.split Orientation.horizontal (PaneTree.leaf 1) (PaneTree.leaf 2))
     Orientation.vertical 7 1 (by decide)⟩

/-- C2: `find_adjacent_terminal` walking up from the leaf at path `p` obeys
the nearest-matching-ancestor description: when no ancestor split along the
path has the direction's axis it returns `none`, and when the nearest such
ancestor is entered through the side the direction departs from it returns
the start-preferring first terminal of the opposite child. -/
theorem find_adjacent_terminal_nearest (T : PaneTree) (p : List Side)
    (d : FocusDirection) :
    (nearestAxisAncestor T p d = none → find_adjacent_terminal T p d = none) ∧
    (∀ s e, nearestAxisAncestor T p d = some (departSide d, s, e) →
      find_adjacent_terminal T p d =
        some (find_terminal_in_widget (oppositeChild d s e))) := by
  induction p generalizing T with
  | nil =>
      cases T <;> exact ⟨fun _ => rfl, fun s e hx => by cases hx⟩
  | cons side p ih =>
      cases T with
      | leaf j => exact ⟨fun _ => rfl, fun s e hx => by cases hx⟩
      | split o s e =>
          cases side with
          | start =>
              obtain ⟨ih1, ih2⟩ := ih s
              cases hm : nearestAxisAncestor s p d with
              | some r =>
                  constructor
                  · intro hnone
                    simp [nearestAxisAncestor, hm] at hnone
                  · intro s' e' hsome
                    simp only [nearestAxisAncestor, hm] at hsome
                    have hfind := ih2 s' e' (hm.trans hsome)
                    simp [find_adjacent_terminal, hfind]
              | none =>
                  have hf : find_adjacent_terminal s p d = none := ih1 hm
                  constructor
                  · intro hnone
                    simp only [nearestAxisAncestor, hm] at hnone
                    by_cases ho : o = axisOf d
                    · simp [ho] at hnone
                    · simp [find_adjacent_terminal, hf, ho]
                  · intro s' e' hsome
                    simp only [nearestAxisAncestor, hm] at hsome
                    by_cases ho : o = axisOf d
                    · rw [if_pos ho] at hsome
                      injection hsome with htrip
                      have hside : Side.start = departSide d := congrArg Prod.fst htrip
                      have hs' : s = s' := congrArg (fun x => x.2.1) htrip
                      have he' : e = e' := congrArg (fun x => x.2.2) htrip
                      subst hs'
                      subst he'
                      simp only [find_adjacent_terminal, hf]
                      rw [if_pos ⟨ho, hside⟩]
                      simp [oppositeChild, ← hside]
                    · rw [if_neg ho] at hsome
                      cases hsome
          | stop =>
              obtain ⟨ih1, ih2⟩ := ih e
              cases hm : nearestAxisAncestor e p d with
              | some r =>
                  constructor
                  · intro hnone
                    simp [nearestAxisAncestor, hm] at hnone
                  · intro s' e' hsome
                    simp only [nearestAxisAncestor, hm] at hsome
                    have hfind := ih2 s' e' (hm.trans hsome)
                    simp [find_adjacent_terminal, hfind]
              | none =>
                  have hf : find_adjacent_terminal e p d = none := ih1 hm
                  constructor
                  · intro hnone
                    simp only [nearestAxisAncestor, hm] at hnone
                    by_cases ho : o = axisOf d
                    · simp [ho] at hnone
                    · simp [find_adjacent_terminal, hf, ho]
                  · intro s' e' hsome
                    simp only [nearestAxisAncestor, hm] at hsome
                    by_cases ho : o = axisOf d
                    · rw [if_pos ho] at hsome
                      injection hsome with htrip
                      have hside : Side.stop = departSide d := congrArg Prod.fst htrip
                      have hs' : s = s' := congrArg (fun x => x.2.1) htrip
                      have he' : e = e' := congrArg (fun x => x.2.2) htrip
                      subst hs'
                      subst he'
                      simp only [find_adjacent_terminal, hf]
                      rw [if_pos ⟨ho, hside⟩]
                      simp [oppositeChild, ← hside]
                    · rw [if_neg ho] at hsome
                      cases hsome

/-- Witness for `find_adjacent_terminal_nearest`: in the layout
`[[1|2]|3]` (two nested horizontal splits), focus-left from leaf 2 lands on
leaf 1, the first terminal of the opposite child of the nearest horizontal
ancestor. -/
theorem find_adjacent_terminal_nearest_witness :
    nearestAxisAncestor
        (PaneTree.split Orientation.horizontal
          (PaneTree.split Orientation.horizontal (PaneTree.leaf 1) (PaneTree.leaf 2))
          (PaneTree.leaf 3))
        [Side.start, Side.stop] FocusDirection.left =
      some (departSide FocusDirection.left, PaneTree.leaf 1, PaneTree.leaf 2) ∧
    find_adjacent_terminal
        (PaneTree.split Orientation.horizontal
          (PaneTree.split Orientation.horizontal (PaneTree.leaf 1) (PaneTree.leaf 2))
          (PaneTree.leaf 3))
        [Side.start, Side.stop] FocusDirection.left = some 1 :=
  ⟨by decide,
   (find_adjacent_terminal_nearest
      (PaneTree.split Orientation.horizontal
        (PaneTree.split Orientation.horizontal (PaneTree.leaf 1) (PaneTree.leaf 2))
        (PaneTree.leaf 3))
      [Side.start, Side.stop] FocusDirection.left).2
     (PaneTree.leaf 1) (PaneTree.leaf 2) (by decide)⟩

/-- C3: for a chord holding only recognized modifier bits, a key event
matches exactly when the key agrees up to case and the event's four
recognized modifier bits equal the chord's — lock-key and other
unrecognized state is masked out — and in particular a Ctrl-only chord
rejects Ctrl+Shift, accepts Ctrl with caps lock on, and accepts the
uppercase key. -/
theorem matches_exact_on_recognized_modifiers (b : KeyBinding) (k : Nat)
    (st : ModifierType) (h : b.modifiers.and relevantMask = b.modifiers) :
    (b.matches k st = true ↔
      ((k = b.key ∨ keyvalToLower k = keyvalToLower b.key ∨
          keyvalToUpper k = keyvalToUpper b.key) ∧
        st.control = b.modifiers.control ∧ st.shift = b.modifiers.shift ∧
        st.alt = b.modifiers.alt ∧ st.super = b.modifiers.super)) ∧
    KeyBinding.matches ⟨97, CONTROL_MASK⟩ 97 (CONTROL_MASK.or SHIFT_MASK) = false ∧
    KeyBinding.matches ⟨97, CONTROL_MASK⟩ 97 (CONTROL_MASK.or LOCK_MASK) = true ∧
    KeyBinding.matches ⟨97, CONTROL_MASK⟩ 65 CONTROL_MASK = true := by
  refine ⟨?_, by decide, by decide, by decide⟩
  have hmod : ∀ (s1 l1 c1 a1 su1 o1 ms ml mc ma msu mo : Bool),
      (ModifierType.mk ms ml mc ma msu mo).and relevantMask =
        ⟨ms, ml, mc, ma, msu, mo⟩ →
      (((ModifierType.mk s1 l1 c1 a1 su1 o1).and relevantMask ==
          (⟨ms, ml, mc, ma, msu, mo⟩ : ModifierType)) = true ↔
        (c1 = mc ∧ s1 = ms ∧ a1 = ma ∧ su1 = msu)) := by decide
  have hkey : ∀ (x y : Nat),
      ((x == y || keyvalToLower x == keyvalToLower y
          || keyvalToUpper x == keyvalToUpper y) = true ↔
        (x = y ∨ keyvalToLower x = keyvalToLower y ∨
          keyvalToUpper x = keyvalToUpper y)) := by
    intro x y
    simp [or_assoc]
  obtain ⟨bk, ms, ml, mc, ma, msu, mo⟩ := b
  obtain ⟨s1, l1, c1, a1, su1, o1⟩ := st
  simp only [KeyBinding.matches, Bool.and_eq_true]
  rw [hkey k bk, hmod s1 l1 c1 a1 su1 o1 ms ml mc ma msu mo h]

/-- Witness for `matches_exact_on_recognized_modifiers` at the Ctrl+a
chord. -/
theorem matches_exact_on_recognized_modifiers_witness :
    KeyBinding.matches ⟨97, CONTROL_MASK⟩ 65 CONTROL_MASK = true :=
  (matches_exact_on_recognized_modifiers ⟨97, CONTROL_MASK⟩ 97 CONTROL_MASK
    (by decide)).2.2.2

/-- C4 counterexample: loading a table whose new-tab spec names no valid
key does not leave that binding unable to match; the binding keeps its
previous (default) chord and still matches the default's key event. -/
theorem unresolved_chord_binding_still_matches :
    parse_keybinding "Ctrl+Bogus".toList = none ∧
    (apply_keybindings default_keybindings
        { RawKeyBindings.empty with new_tab := some "Ctrl+Bogus".toList }).new_tab =
      default_keybindings.new_tab ∧
    (apply_keybindings default_keybindings
        { RawKeyBindings.empty with new_tab := some "Ctrl+Bogus".toList }).new_tab.matches
        84 ⟨true, false, true, false, false, false⟩ = true := by
  refine ⟨by decide, by decide, by decide⟩

/-- C4 (amended): a binding whose configured spec resolves no key is left
at its previously held value — it keeps matching exactly the events it
matched before — while every other binding in the table still loads
independently from its own entry. -/
theorem apply_keybindings_unresolved_keeps_binding (b : KeyBindings)
    (raw : RawKeyBindings) (s : List Char) (hr : raw.new_tab = some s)
    (hp : parse_keybinding s = none) :
    (apply_keybindings b raw).new_tab = b.new_tab ∧
    (∀ k m, (apply_keybindings b raw).new_tab.matches k m = b.new_tab.matches k m) ∧
    (apply_keybindings b raw).close_tab = updateBinding b.close_tab raw.close_tab ∧
    (apply_keybindings b raw).copy = updateBinding b.copy raw.copy ∧
    (apply_keybindings b raw).focus_left = updateBinding b.focus_left raw.focus_left := by
  have h1 : (apply_keybindings b raw).new_tab = b.new_tab := by
    simp [apply_keybindings, updateBinding, hr, hp]
  exact ⟨h1, fun k m => by rw [h1], rfl, rfl, rfl⟩

/-- Witness for `apply_keybindings_unresolved_keeps_binding` on the default
table and an unresolvable new-tab spec. -/
theorem apply_keybindings_unresolved_keeps_binding_witness :
    (apply_keybindings default_keybindings
        { RawKeyBindings.empty with new_tab := some "Ctrl+NoSuchKey".toList }).new_tab =
      default_keybindings.new_tab :=
  (apply_keybindings_unresolved_keeps_binding default_keybindings
      { RawKeyBindings.empty with new_tab := some "Ctrl+NoSuchKey".toList }
      "Ctrl+NoSuchKey".toList rfl (by decide)).1

/-- Helper: `o.isSome = false` says the option is `none`. -/
theorem isSome_false_iff_none {α : Type} (o : Option α) :
    o.isSome = false ↔ o = none := by
  cases o <;> simp

/-- Helper: the tab-switch loop leaves the event unconsumed exactly when
its first matching binding, if any, is out of range. -/
theorem tab_switch_scan_proceed_iff (l : List KeyBinding) (idx n k : Nat)
    (m : ModifierType) :
    tab_switch_scan l idx n k m = Propagation.Proceed ↔
      (∀ i, firstMatchIdx l idx k m = some i → n ≤ i) := by
  induction l generalizing idx with
  | nil => simp [tab_switch_scan, firstMatchIdx]
  | cons b rest ih =>
      by_cases hb : b.matches k m = true
      · simp only [tab_switch_scan, firstMatchIdx, hb, if_true]
        by_cases hn : idx < n
        · simp only [hn, if_true]
          constructor
          · intro hx; cases hx
          · intro hx; exact absurd (hx idx rfl) (by omega)
        · simp only [hn, if_false]
          constructor
          · intro _ i hi
            cases hi
            omega
          · intro _
            trivial
      · simp only [tab_switch_scan, firstMatchIdx, hb, if_false]
        exact ih (idx + 1)

/-- C5 counterexample: the Ctrl+Shift+C event with no focused terminal
matches the copy chord — a command that is neither directional-focus nor
close-panel (its chord matches none of those) — yet the handler leaves the
event unconsumed. -/
theorem copy_chord_match_left_unconsumed :
    default_keybindings.copy.matches 67 ⟨true, false, true, false, false, false⟩ = true ∧
    default_keybindings.close_panel.matches 67
      ⟨true, false, true, false, false, false⟩ = false ∧
    default_keybindings.focus_left.matches 67
      ⟨true, false, true, false, false, false⟩ = false ∧
    default_keybindings.focus_right.matches 67
      ⟨true, false, true, false, false, false⟩ = false ∧
    default_keybindings.focus_up.matches 67
      ⟨true, false, true, false, false, false⟩ = false ∧
    default_keybindings.focus_down.matches 67
      ⟨true, false, true, false, false, false⟩ = false ∧
    connect_key_pressed default_keybindings ⟨PaneTree.leaf 0, none, 1⟩ 67
      ⟨true, false, true, false, false, false⟩ = Propagation.Proceed := by
  refine ⟨by decide, by decide, by decide, by decide, by decide, by decide, by decide⟩

/-- C5 (amended): the handler leaves an event unconsumed exactly when no
always-consuming chord matches, every matching soft chord (close-panel,
copy, paste with no focused terminal; directional focus with no adjacent
pane) is inapplicable, and the first matching tab-switch chord, if any,
names an out-of-range page. -/
theorem connect_key_pressed_proceed_iff (kb : KeyBindings) (st : AppState)
    (k : Nat) (m : ModifierType) :
    connect_key_pressed kb st k m = Propagation.Proceed ↔
      (kb.new_tab.matches k m = false ∧
       kb.close_tab.matches k m = false ∧
       kb.rename_tab.matches k m = false ∧
       (kb.close_panel.matches k m = true → st.focus = none) ∧
       kb.split_vertical.matches k m = false ∧
       kb.split_horizontal.matches k m = false ∧
       (kb.copy.matches k m = true → st.focus = none) ∧
       (kb.paste.matches k m = true → st.focus = none) ∧
       (kb.focus_left.matches k m = true →
          focus_adjacent_split st FocusDirection.left = false) ∧
       (kb.focus_right.matches k m = true →
          focus_adjacent_split st FocusDirection.right = false) ∧
       (kb.focus_up.matches k m = true →
          focus_adjacent_split st FocusDirection.up = false) ∧
       (kb.focus_down.matches k m = true →
          focus_adjacent_split st FocusDirection.down = false) ∧
       kb.reload_config.matches k m = false ∧
       kb.show_keybindings.matches k m = false ∧
       (∀ i, firstMatchIdx kb.tab_switch 0 k m = some i → st.nPages ≤ i)) := by
  have boolTrue : ∀ b : Bool, ¬ b = false → b = true := by decide
  have andFalseOfImp : ∀ (x y : Bool), (x = true → y = false) → (x && y) = false := by
    decide
  constructor
  · intro hP
    have d1 : kb.new_tab.matches k m = false := by
      by_contra hc
      rw [connect_key_pressed, if_pos (boolTrue _ hc)] at hP
      cases hP
    have d2 : kb.close_tab.matches k m = false := by
      by_contra hc
      rw [connect_key_pressed, if_neg (by rw [d1]; exact Bool.false_ne_true),
        if_pos (boolTrue _ hc)] at hP
      cases hP
    have d3 : kb.rename_tab.matches k m = false := by
      by_contra hc
      rw [connect_key_pressed, if_neg (by rw [d1]; exact Bool.false_ne_true),
        if_neg (by rw [d2]; exact Bool.false_ne_true),
        if_pos (boolTrue _ hc)] at hP
      cases hP
    have d4 : (kb.close_panel.matches k m && close_focused_panel st) = false := by
      by_contra hc
      rw [connect_key_pressed, if_neg (by rw [d1]; exact Bool.false_ne_true),
        if_neg (by rw [d2]; exact Bool.false_ne_true),
        if_neg (by rw [d3]; exact Bool.false_ne_true),
        if_pos (boolTrue _ hc)] at hP
      cases hP
    have d5 : kb.split_vertical.matches k m = false := by
      by_contra hc
      rw [connect_key_pressed, if_neg (by rw [d1]; exact Bool.false_ne_true),
        if_neg (by rw [d2]; exact Bool.false_ne_true),
        if_neg (by rw [d3]; exact Bool.false_ne_true),
        if_neg (by rw [d4]; exact Bool.false_ne_true),
        if_pos (boolTrue _ hc)] at hP
      cases hP
    have d6 : kb.split_horizontal.matches k m = false := by
      by_contra hc
      rw [connect_key_pressed, if_neg (by rw [d1]; exact Bool.false_ne_true),
        if_neg (by rw [d2]; exact Bool.false_ne_true),
        if_neg (by rw [d3]; exact Bool.false_ne_true),
        if_neg (by rw [d4]; exact Bool.false_ne_true),
        if_neg (by rw [d5]; exact Bool.false_ne_true),
        if_pos (boolTrue _ hc)] at hP
      cases hP
    have d7 : (kb.copy.matches k m && st.focus.isSome) = false := by
      by_contra hc
      rw [connect_key_pressed, if_neg (by rw [d1]; exact Bool.false_ne_true),
        if_neg (by rw [d2]; exact Bool.false_ne_true),
        if_neg (by rw [d3]; exact Bool.false_ne_true),
        if_neg (by rw [d4]; exact Bool.false_ne_true),
        if_neg (by rw [d5]; exact Bool.false_ne_true),
        if_neg (by rw [d6]; exact Bool.false_ne_true),
        if_pos (boolTrue _ hc)] at hP
      cases hP
    have d8 : (kb.paste.matches k m && st.focus.isSome) = false := by
      by_contra hc
      rw [connect_key_pressed, if_neg (by rw [d1]; exact Bool.false_ne_true),
        if_neg (by rw [d2]; exact Bool.false_ne_true),
        if_neg (by rw [d3]; exact Bool.false_ne_true),
        if_neg (by rw [d4]; exact Bool.false_ne_true),
        if_neg (by rw [d5]; exact Bool.false_ne_true),
        if_neg (by rw [d6]; exact Bool.false_ne_true),
        if_neg (by rw [d7]; exact Bool.false_ne_true),
        if_pos (boolTrue _ hc)] at hP
      cases hP
    have d9 : (kb.focus_left.matches k m &&
        focus_adjacent_split st FocusDirection.left) = false := by
      by_contra hc
      rw [connect_key_pressed, if_neg (by rw [d1]; exact Bool.false_ne_true),
        if_neg (by rw [d2]; exact Bool.false_ne_true),
        if_neg (by rw [d3]; exact Bool.false_ne_true),
        if_neg (by rw [d4]; exact Bool.false_ne_true),
        if_neg (by rw [d5]; exact Bool.false_ne_true),
        if_neg (by rw [d6]; exact Bool.false_ne_true),
        if_neg (by rw [d7]; exact Bool.false_ne_true),
        if_neg (by rw [d8]; exact Bool.false_ne_true),
        if_pos (boolTrue _ hc)] at hP
      cases hP
    have d10 : (kb.focus_right.matches k m &&
        focus_adjacent_split st FocusDirection.right) = false := by
      by_contra hc
      rw [connect_key_pressed, if_neg (by rw [d1]; exact Bool.false_ne_true),
        if_neg (by rw [d2]; exact Bool.false_ne_true),
        if_neg (by rw [d3]; exact Bool.false_ne_true),
        if_neg (by rw [d4]; exact Bool.false_ne_true),
        if_neg (by rw [d5]; exact Bool.false_ne_true),
        if_neg (by rw [d6]; exact Bool.false_ne_true),
        if_neg (by rw [d7]; exact Bool.false_ne_true),
        if_neg (by rw [d8]; exact Bool.false_ne_true),
        if_neg (by rw [d9]; exact Bool.false_ne_true),
        if_pos (boolTrue _ hc)] at hP
      cases hP
    have d11 : (kb.focus_up.matches k m &&
        focus_adjacent_split st FocusDirection.up) = false := by
      by_contra hc
      rw [connect_key_pressed, if_neg (by rw [d1]; exact Bool.false_ne_true),
        if_neg (by rw [d2]; exact Bool.false_ne_true),
        if_neg (by rw [d3]; exact Bool.false_ne_true),
        if_neg (by rw [d4]; exact Bool.false_ne_true),
        if_neg (by rw [d5]; exact Bool.false_ne_true),
        if_neg (by rw [d6]; exact Bool.false_ne_true),
        if_neg (by rw [d7]; exact Bool.false_ne_true),
        if_neg (by rw [d8]; exact Bool.false_ne_true),
        if_neg (by rw [d9]; exact Bool.false_ne_true),
        if_neg (by rw [d10]; exact Bool.false_ne_true),
        if_pos (boolTrue _ hc)] at hP
      cases hP
    have d12 : (kb.focus_down.matches k m &&
        focus_adjacent_split st FocusDirection.down) = false := by
      by_contra hc
      rw [connect_key_pressed, if_neg (by rw [d1]; exact Bool.false_ne_true),
        if_neg (by rw [d2]; exact Bool.false_ne_true),
        if_neg (by rw [d3]; exact Bool.false_ne_true),
        if_neg (by rw [d4]; exact Bool.false_ne_true),
        if_neg (by rw [d5]; exact Bool.false_ne_true),
        if_neg (by rw [d6]; exact Bool.false_ne_true),
        if_neg (by rw [d7]; exact Bool.false_ne_true),
        if_neg (by rw [d8]; exact Bool.false_ne_true),
        if_neg (by rw [d9]; exact Bool.false_ne_true),
        if_neg (by rw [d10]; exact Bool.false_ne_true),
        if_neg (by rw [d11]; exact Bool.false_ne_true),
        if_pos (boolTrue _ hc)] at hP
      cases hP
    have d13 : kb.reload_config.matches k m = false := by
      by_contra hc
      rw [connect_key_pressed, if_neg (by rw [d1]; exact Bool.false_ne_true),
        if_neg (by rw [d2]; exact Bool.false_ne_true),
        if_neg (by rw [d3]; exact Bool.false_ne_true),
        if_neg (by rw [d4]; exact Bool.false_ne_true),
        if_neg (by rw [d5]; exact Bool.false_ne_true),
        if_neg (by rw [d6]; exact Bool.false_ne_true),
        if_neg (by rw [d7]; exact Bool.false_ne_true),
        if_neg (by rw [d8]; exact Bool.false_ne_true),
        if_neg (by rw [d9]; exact Bool.false_ne_true),
        if_neg (by rw [d10]; exact Bool.false_ne_true),
        if_neg (by rw [d11]; exact Bool.false_ne_true),
        if_neg (by rw [d12]; exact Bool.false_ne_true),
        if_pos (boolTrue _ hc)] at hP
      cases hP
    have d14 : kb.show_keybindings.matches k m = false := by
      by_contra hc
      rw [connect_key_pressed, if_neg (by rw [d1]; exact Bool.false_ne_true),
        if_neg (by rw [d2]; exact Bool.false_ne_true),
        if_neg (by rw [d3]; exact Bool.false_ne_true),
        if_neg (by rw [d4]; exact Bool.false_ne_true),
        if_neg (by rw [d5]; exact Bool.false_ne_true),
        if_neg (by rw [d6]; exact Bool.false_ne_true),
        if_neg (by rw [d7]; exact Bool.false_ne_true),
        if_neg (by rw [d8]; exact Bool.false_ne_true),
        if_neg (by rw [d9]; exact Bool.false_ne_true),
        if_neg (by rw [d10]; exact Bool.false_ne_true),
        if_neg (by rw [d11]; exact Bool.false_ne_true),
        if_neg (by rw [d12]; exact Bool.false_ne_true),
        if_neg (by rw [d13]; exact Bool.false_ne_true),
        if_pos (boolTrue _ hc)] at hP
      cases hP
    have hscan : tab_switch_scan kb.tab_switch 0 st.nPages k m =
        Propagation.Proceed := by
      rw [connect_key_pressed, if_neg (by rw [d1]; exact Bool.false_ne_true),
        if_neg (by rw [d2]; exact Bool.false_ne_true),
        if_neg (by rw [d3]; exact Bool.false_ne_true),
        if_neg (by rw [d4]; exact Bool.false_ne_true),
        if_neg (by rw [d5]; exact Bool.false_ne_true),
        if_neg (by rw [d6]; exact Bool.false_ne_true),
        if_neg (by rw [d7]; exact Bool.false_ne_true),
        if_neg (by rw [d8]; exact Bool.false_ne_true),
        if_neg (by rw [d9]; exact Bool.false_ne_true),
        if_neg (by rw [d10]; exact Bool.false_ne_true),
        if_neg (by rw [d11]; exact Bool.false_ne_true),
        if_neg (by rw [d12]; exact Bool.false_ne_true),
        if_neg (by rw [d13]; exact Bool.false_ne_true),
        if_neg (by rw [d14]; exact Bool.false_ne_true)] at hP
      exact hP
    refine ⟨d1, d2, d3, ?_, d5, d6, ?_, ?_, ?_, ?_, ?_, ?_, d13, d14,
      (tab_switch_scan_proceed_iff _ _ _ _ _).mp hscan⟩
    · intro hm
      rw [hm, Bool.true_and, close_focused_panel] at d4
      exact (isSome_false_iff_none _).mp d4
    · intro hm
      rw [hm, Bool.true_and] at d7
      exact (isSome_false_iff_none _).mp d7
    · intro hm
      rw [hm, Bool.true_and] at d8
      exact (isSome_false_iff_none _).mp d8
    · intro hm
      rw [hm, Bool.true_and] at d9
      exact d9
    · intro hm
      rw [hm, Bool.true_and] at d10
      exact d10
    · intro hm
      rw [hm, Bool.true_and] at d11
      exact d11
    · intro hm
      rw [hm, Bool.true_and] at d12
      exact d12
  · rintro ⟨c1, c2, c3, c4, c5, c6, c7, c8, c9, c10, c11, c12, c13, c14, c15⟩
    have d4 : (kb.close_panel.matches k m && close_focused_panel st) = false :=
      andFalseOfImp _ _ (fun hm => by
        rw [close_focused_panel, c4 hm]
        rfl)
    have d7 : (kb.copy.matches k m && st.focus.isSome) = false :=
      andFalseOfImp _ _ (fun hm => by rw [c7 hm]; rfl)
    have d8 : (kb.paste.matches k m && st.focus.isSome) = false :=
      andFalseOfImp _ _ (fun hm => by rw [c8 hm]; rfl)
    rw [connect_key_pressed, if_neg (by rw [c1]; exact Bool.false_ne_true),
      if_neg (by rw [c2]; exact Bool.false_ne_true),
      if_neg (by rw [c3]; exact Bool.false_ne_true),
      if_neg (by rw [d4]; exact Bool.false_ne_true),
      if_neg (by rw [c5]; exact Bool.false_ne_true),
      if_neg (by rw [c6]; exact Bool.false_ne_true),
      if_neg (by rw [d7]; exact Bool.false_ne_true),
      if_neg (by rw [d8]; exact Bool.false_ne_true),
      if_neg (by rw [andFalseOfImp _ _ c9]; exact Bool.false_ne_true),
      if_neg (by rw [andFalseOfImp _ _ c10]; exact Bool.false_ne_true),
      if_neg (by rw [andFalseOfImp _ _ c11]; exact Bool.false_ne_true),
      if_neg (by rw [andFalseOfImp _ _ c12]; exact Bool.false_ne_true),
      if_neg (by rw [c13]; exact Bool.false_ne_true),
      if_neg (by rw [c14]; exact Bool.false_ne_true)]
    exact (tab_switch_scan_proceed_iff _ _ _ _ _).mpr c15

/-- Witness for `connect_key_pressed_proceed_iff`: an event matching no
chord at all propagates. -/
theorem connect_key_pressed_proceed_iff_witness :
    connect_key_pressed default_keybindings ⟨PaneTree.leaf 0, none, 1⟩ 120
      ModifierType.empty = Propagation.Proceed :=
  (connect_key_pressed_proceed_iff default_keybindings ⟨PaneTree.leaf 0, none, 1⟩
      120 ModifierType.empty).mpr
    (by
      refine ⟨by decide, by decide, by decide, by decide, by decide, by decide,
        by decide, by decide, by decide, by decide, by decide, by decide,
        by decide, by decide, ?_⟩
      intro i hi
      rw [show firstMatchIdx default_keybindings.tab_switch 0 120
          ModifierType.empty = none by decide] at hi
      cases hi)

/-- C6: evaluation of `create_tab` around the failing input.  From the
startup state, two new-tab presses leave three pages with page 2 active and
counter-derived titles, as claimed; but after one tab has been closed the
counter exceeds the page count, so the `set_current_page(counter - 1)` call
of the next `create_tab` is out of range and does nothing: the new tab
(page index 1) is appended yet page 0 stays active, contradicting the
claim that the new tab always becomes active. -/
theorem create_tab_after_close_keeps_old_page_active :
    (create_tab "Terminal" (create_tab "Terminal"
        (create_tab "Terminal" ⟨[], 0, 1⟩))).titles =
      ["Terminal 1", "Terminal 2", "Terminal 3"] ∧
    (create_tab "Terminal" (create_tab "Terminal"
        (create_tab "Terminal" ⟨[], 0, 1⟩))).active = 2 ∧
    (create_tab "Terminal" (close_current_tab "Terminal"
        (create_tab "Terminal" (create_tab "Terminal" ⟨[], 0, 1⟩)))).titles =
      ["Terminal 1", "Terminal 3"] ∧
    (create_tab "Terminal" (close_current_tab "Terminal"
        (create_tab "Terminal" (create_tab "Terminal" ⟨[], 0, 1⟩)))).active = 0 := by
  refine ⟨by decide, by decide, by decide, by decide⟩

/-- C7 counterexample: renaming to text with surrounding whitespace does
not store the given text verbatim — the stored title is the trimmed
text. -/
theorem rename_is_not_verbatim :
    rename_current_tab "Terminal 1".toList " abc ".toList = "abc".toList ∧
    rename_current_tab "Terminal 1".toList " abc ".toList ≠ " abc ".toList := by
  refine ⟨by decide, by decide⟩

/-- C7 (amended): a rename whose text trims to empty is a no-op; otherwise
the trimmed text replaces the title, with no length limit. -/
theorem rename_trimmed_or_noop (title input : List Char) :
    (trimChars input = [] → rename_current_tab title input = title) ∧
    (trimChars input ≠ [] → rename_current_tab title input = trimChars input) := by
  constructor
  · intro h
    simp [rename_current_tab, h]
  · intro h
    simp [rename_current_tab, List.isEmpty_iff, h]

/-- Witness for `rename_trimmed_or_noop`: renaming to two spaces leaves the
title unchanged. -/
theorem rename_trimmed_or_noop_witness :
    trimChars "  ".toList = [] ∧
    rename_current_tab "Terminal 1".toList "  ".toList = "Terminal 1".toList :=
  ⟨by decide, (rename_trimmed_or_noop "Terminal 1".toList "  ".toList).1 (by decide)⟩

/-- Helper: `create_tab` and `focus_previous_tab` act on titles as
append and identity respectively. -/
theorem create_tab_titles_length (t : String) (s : TabsState) :
    (create_tab t s).titles.length = s.titles.length + 1 := by
  simp only [create_tab, set_current_page]
  split <;> simp

/-- Helper: refocusing after a close does not change the pages. -/
theorem focus_previous_tab_titles (s : TabsState) (i : Nat) :
    (focus_previous_tab s i).titles = s.titles := by
  simp only [focus_previous_tab, set_current_page]
  repeat' split
  all_goals rfl

/-- Helper: removing one index drops the length by at most one. -/
theorem eraseIdx_length_ge {α : Type} (l : List α) (i : Nat) :
    l.length - 1 ≤ (l.eraseIdx i).length := by
  induction l generalizing i with
  | nil => simp
  | cons a l ih =>
      cases i with
      | zero => simp [List.eraseIdx]
      | succ j =>
          have := ih j
          simp only [List.eraseIdx, List.length_cons]
          omega

/-- Helper: the trailing emptiness check of the tab-close handlers always
re-establishes a page. -/
theorem ensure_tab_pos (t : String) (s2 : TabsState) :
    0 < (if s2.titles.length = 0 then create_tab t s2 else s2).titles.length := by
  split
  · rw [create_tab_titles_length]
    omega
  · omega

/-- C8: no close-tab path leaves the set empty while the application stays
open: the keyboard close and the close button recreate a default tab when
the last page went away, and the panel-cascade close instead closes the
window when at most one page remains. -/
theorem close_tab_never_leaves_empty (tabTitle : String) (st : TabsState)
    (page : Nat) (h : 0 < st.titles.length) :
    0 < (close_current_tab tabTitle st).titles.length ∧
    0 < (close_button_clicked tabTitle st page).titles.length ∧
    ((close_tab_or_window st).2 = true ∨
      0 < (close_tab_or_window st).1.titles.length) := by
  refine ⟨ensure_tab_pos tabTitle _, ensure_tab_pos tabTitle _, ?_⟩
  unfold close_tab_or_window current_page
  have hne : st.titles.isEmpty = false := by
    cases hl : st.titles with
    | nil => rw [hl] at h; simp at h
    | cons a l => simp
  rw [hne]
  simp only [Bool.false_eq_true, if_false]
  by_cases hle : st.titles.length ≤ 1
  · rw [if_pos hle]
    exact Or.inl rfl
  · rw [if_neg hle]
    refine Or.inr ?_
    rw [focus_previous_tab_titles]
    have := eraseIdx_length_ge st.titles st.active
    simp only []
    omega

/-- Witness for `close_tab_never_leaves_empty` on a two-page notebook. -/
theorem close_tab_never_leaves_empty_witness :
    0 < (⟨["a", "b"], 0, 3⟩ : TabsState).titles.length ∧
    0 < (close_current_tab "Terminal" ⟨["a", "b"], 0, 3⟩).titles.length ∧
    ((close_tab_or_window ⟨["a", "b"], 0, 3⟩).2 = true ∨
      0 < (close_tab_or_window ⟨["a", "b"], 0, 3⟩).1.titles.length) :=
  ⟨by decide,
   (close_tab_never_leaves_empty "Terminal" ⟨["a", "b"], 0, 3⟩ 0 (by decide)).1,
   (close_tab_never_leaves_empty "Terminal" ⟨["a", "b"], 0, 3⟩ 0 (by decide)).2.2⟩

/-- C9: a theme whose palette is not exactly 16 colors is rejected whole —
`theme_from_file` yields no theme, before any color is parsed — and the
reload path then leaves every terminal's colors untouched. -/
theorem palette_wrong_length_rejects_theme (raw : ThemeConfig)
    (prior : TermColors) (h : raw.palette.length ≠ 16) :
    theme_from_file raw = some none ∧
    apply_config_colors prior (Option.join (theme_from_file raw)) = prior := by
  have h1 : theme_from_file raw = some none := by
    unfold theme_from_file parse_palette
    rw [if_pos h]
  refine ⟨h1, ?_⟩
  rw [h1]
  rfl

/-- Witness for `palette_wrong_length_rejects_theme`: a 15-entry palette is
skipped and the prior colors are retained. -/
theorem palette_wrong_length_rejects_theme_witness :
    theme_from_file
        ⟨utf8Bytes "#000000".toList, utf8Bytes "#ffffff".toList,
         utf8Bytes "#ffffff".toList,
         (List.range 15).map (fun _ => utf8Bytes "#000000".toList),
         none, none, none, none⟩ = some none ∧
    apply_config_colors ⟨⟨1, 2, 3, 255⟩, ⟨4, 5, 6, 255⟩, ⟨7, 8, 9, 255⟩, []⟩
        (Option.join (theme_from_file
          ⟨utf8Bytes "#000000".toList, utf8Bytes "#ffffff".toList,
           utf8Bytes "#ffffff".toList,
           (List.range 15).map (fun _ => utf8Bytes "#000000".toList),
           none, none, none, none⟩)) =
      ⟨⟨1, 2, 3, 255⟩, ⟨4, 5, 6, 255⟩, ⟨7, 8, 9, 255⟩, []⟩ :=
  palette_wrong_length_rejects_theme
    ⟨utf8Bytes "#000000".toList, utf8Bytes "#ffffff".toList,
     utf8Bytes "#ffffff".toList,
     (List.range 15).map (fun _ => utf8Bytes "#000000".toList),
     none, none, none, none⟩
    ⟨⟨1, 2, 3, 255⟩, ⟨4, 5, 6, 255⟩, ⟨7, 8, 9, 255⟩, []⟩ (by decide)

/-- C10: `rgba` behaves as claimed on single-byte strings — a 6-byte
remainder parses with 0 substituted for invalid hex groups, any other
length yields opaque black — but it is not total: on a 6-byte remainder
whose offset 2 falls inside a multi-byte character the byte slicing
panics. -/
theorem rgba_total_on_ascii_but_panics_on_multibyte :
    rgba (utf8Bytes "#1a2b3c".toList) = some ⟨26, 43, 60, 255⟩ ∧
    rgba (utf8Bytes "abc".toList) = some ⟨0, 0, 0, 255⟩ ∧
    rgba (utf8Bytes "zz0000".toList) = some ⟨0, 0, 0, 255⟩ ∧
    rgba (utf8Bytes "aé2é".toList) = none := by
  refine ⟨by decide, by decide, by decide, by decide⟩

end Termilyon
